import Mathlib

/-!
Verification development for the threat-analyzer-hub SOC platform.

Shallow embedding of the report-data aggregation pipeline (`ReportsTab`,
`reportData` useMemo), the PDF serializer's table-row construction
(`pdfGenerator.ts`), and the chat fallback classifier
(`supabase/functions/ai-chat/index.ts`, `classifyEvent`).

Modelling conventions:
- Timestamps are natural numbers (epoch milliseconds); the JS
  `new Date(s).getTime()` of a stored timestamp is modelled as that number,
  and date comparisons become `≤` on `Nat`.
- Optional / possibly-missing JS fields are `Option String`
  (`undefined` ↦ `none`); the JS `x || d` fallback, which also replaces the
  empty string, is `jsOr`.
- JS numbers produced by the pipeline are natural numbers; `Math.round` of
  a non-negative quotient is `jsRound` (exact rational rounding, half up).
  The one floating-point constant (`systemUptime = 99.8`) is a rational.
- `Math.random()*300+60` (mock avgResponseTime) is made explicit as a
  `rand` parameter of the aggregator.
- `Array.prototype.sort` with comparator `(a, b) => key b - key a` is
  modelled as insertion sort `sortByDesc key`, descending by `key`.
-/

/-- A security event row (`logs` table), with the fields the report
pipeline and the chat classifier read. Optional columns are `Option`. -/
structure Event where
  event_id : String
  timestamp : Nat
  severity : Option String
  event_type : Option String
  alert_name : Option String
  host_name : Option String
  deriving Repr, DecidableEq

/-- A vulnerability record attached to an asset. -/
structure Vuln where
  cve : String
  severity : String
  deriving Repr, DecidableEq

/-- An asset row; `vulnerabilities` is `none` when the stored payload is
not an array (the code guards with `Array.isArray`). -/
structure Asset where
  name : String
  status : Option String
  vulnerabilities : Option (List Vuln)
  deriving Repr, DecidableEq

/-- JS `x || d` for an optional string `x`: `undefined` and the empty
string (both falsy) fall back to `d`. -/
def jsOr (x : Option String) (d : String) : String :=
  match x with
  | none => d
  | some s => if s = "" then d else s

/-- JS `x || y` where both operands are optional strings. -/
def jsOrO (x y : Option String) : Option String :=
  match x with
  | none => y
  | some s => if s = "" then y else s

/-- `Math.round (num / den)` for `0 ≤ num` and `0 < den`: round half up,
computed exactly as `⌊num/den + 1/2⌋`. -/
def jsRound (num den : Nat) : Nat :=
  (2 * num + den) / (2 * den)

/-- Insert `x` into a list kept in descending `key` order. Models one step
of sorting with comparator `(a, b) => key b - key a`. -/
def insertDesc (key : α → Nat) (x : α) : List α → List α
  | [] => [x]
  | y :: ys => if key y ≤ key x then x :: y :: ys else y :: insertDesc key x ys

/-- Sort a list in descending order of `key`
(JS `.sort((a, b) => key(b) - key(a))`). -/
def sortByDesc (key : α → Nat) : List α → List α
  | [] => []
  | x :: xs => insertDesc key x (sortByDesc key xs)

/-- The per-severity histogram (`threatOverview` object). -/
structure ThreatOverview where
  critical : Nat
  high : Nat
  medium : Nat
  low : Nat
  info : Nat
  deriving Repr, DecidableEq

/-- `executiveSummary` object of `ReportData`. -/
structure ExecutiveSummary where
  totalEvents : Nat
  criticalAlerts : Nat
  highAlerts : Nat
  assetsMonitored : Nat
  riskScore : Nat
  deriving Repr, DecidableEq

/-- `assetStatus` object of `ReportData`. -/
structure AssetStatus where
  total : Nat
  online : Nat
  offline : Nat
  vulnerable : Nat
  deriving Repr, DecidableEq

/-- An entry of `topEvents` (shape produced by the `.map` in the source). -/
structure TopEvent where
  id : String
  eventType : String
  severity : String
  timestamp : Nat
  hostName : String
  alertName : String
  deriving Repr, DecidableEq

/-- An entry of `vulnerabilitySummary`. -/
structure VulnSummaryEntry where
  assetName : String
  vulnerabilityCount : Nat
  criticalVulns : Nat
  deriving Repr, DecidableEq

/-- `complianceMetrics` object; `avgResponseTime` is the mock random value,
`systemUptime` the constant `99.8`. -/
structure ComplianceMetrics where
  eventsProcessed : Nat
  avgResponseTime : Nat
  systemUptime : ℚ
  deriving Repr, DecidableEq

/-- The `ReportData` structure (`src/types/common.ts`). -/
structure ReportData where
  executiveSummary : ExecutiveSummary
  threatOverview : ThreatOverview
  assetStatus : AssetStatus
  topEvents : List TopEvent
  vulnerabilitySummary : List VulnSummaryEntry
  recommendations : List String
  complianceMetrics : ComplianceMetrics
  deriving Repr, DecidableEq

/-- The window filter: events whose timestamp lies in `[fromD, toD]`,
both endpoints inclusive (`eventDate >= from && eventDate <= to`). -/
def filteredEvents (fromD toD : Nat) (logs : List Event) : List Event :=
  logs.filter fun e => fromD ≤ e.timestamp ∧ e.timestamp ≤ toD

/-- Count of filtered events whose `severity` field strict-equals `s`. -/
def sevCount (s : String) (l : List Event) : Nat :=
  (l.filter fun e => e.severity = some s).length

/-- Assets whose `vulnerabilities` payload is an array with at least one
entry (`Array.isArray(asset.vulnerabilities) && asset.vulnerabilities.length > 0`). -/
def vulnerableAssets (assets : List Asset) : List Asset :=
  assets.filter fun a =>
    match a.vulnerabilities with
    | some vs => 0 < vs.length
    | none => False

/-- The `.map` body building a `topEvents` entry from an event. -/
def toTopEvent (e : Event) : TopEvent :=
  { id := e.event_id
  , eventType := jsOr e.event_type "Unknown"
  , severity := jsOr e.severity "unknown"
  , timestamp := e.timestamp
  , hostName := jsOr e.host_name "Unknown"
  , alertName := jsOr (jsOrO e.alert_name e.event_type) "Unknown Alert" }

/-- The `.map` body building a `vulnerabilitySummary` entry from an asset. -/
def toVulnSummary (a : Asset) : VulnSummaryEntry :=
  { assetName := a.name
  , vulnerabilityCount := (a.vulnerabilities.getD []).length
  , criticalVulns := ((a.vulnerabilities.getD []).filter fun v => v.severity = "critical").length }

/-- The four threshold-triggered advisory strings and the fixed tail of
general best-practice strings (`recommendations` array literal). -/
def recCritical : String := "Immediate attention required for critical security alerts"

/-- Patch-scheduling advisory, triggered by any vulnerable asset. -/
def recPatch : String := "Schedule vulnerability patching for affected assets"

/-- Investigate-offline advisory, triggered by any offline asset. -/
def recOffline : String := "Investigate and restore offline assets"

/-- Review-monitoring-rules advisory, triggered by high count > 5. -/
def recReview : String := "Review and enhance security monitoring rules"

/-- The fixed tail of general best-practice recommendation strings. -/
def recGeneralTail : List String :=
  [ "Regular security awareness training for all users"
  , "Implement multi-factor authentication across all systems"
  , "Conduct regular penetration testing"
  , "Update incident response procedures" ]

/-- The `threatOverview` const: exact count per severity bucket over the
filtered set. -/
def threatOverviewOf (filtered : List Event) : ThreatOverview :=
  { critical := sevCount "critical" filtered
  , high := sevCount "high" filtered
  , medium := sevCount "medium" filtered
  , low := sevCount "low" filtered
  , info := sevCount "info" filtered }

/-- The `totalAlerts` const: sum of the five histogram buckets (this is
what the code reports as `totalEvents`). -/
def totalAlerts (tv : ThreatOverview) : Nat :=
  tv.critical + tv.high + tv.medium + tv.low + tv.info

/-- The `riskScore` const:
`Math.min(100, Math.round((critical*10 + high*5 + medium*2) / Math.max(1, totalAlerts) * 100))`. -/
def riskScoreOf (tv : ThreatOverview) : Nat :=
  min 100 (jsRound ((tv.critical * 10 + tv.high * 5 + tv.medium * 2) * 100)
    (max 1 (totalAlerts tv)))

/-- The `topEvents` const: filter to critical/high, sort descending by
timestamp, take the first 10, map to the display shape. -/
def topEventsOf (filtered : List Event) : List TopEvent :=
  ((sortByDesc (fun e => e.timestamp)
    (filtered.filter fun e => e.severity = some "critical" ∨ e.severity = some "high")).take 10).map
    toTopEvent

/-- The `vulnerabilitySummary` const: map vulnerable assets to summary
entries, sort descending by critical-vulnerability count, take 10. -/
def vulnerabilitySummaryOf (assets : List Asset) : List VulnSummaryEntry :=
  (sortByDesc (fun v => v.criticalVulns) ((vulnerableAssets assets).map toVulnSummary)).take 10

/-- Count of assets with `status === 'offline'`. -/
def offlineCount (assets : List Asset) : Nat :=
  (assets.filter fun a => a.status = some "offline").length

/-- The `recommendations` array literal: four conditional advisories
followed by the fixed general tail. -/
def recommendationsOf (tv : ThreatOverview) (assets : List Asset) : List String :=
  (if 0 < tv.critical then [recCritical] else []) ++
  (if 0 < (vulnerableAssets assets).length then [recPatch] else []) ++
  (if 0 < offlineCount assets then [recOffline] else []) ++
  (if 5 < tv.high then [recReview] else []) ++
  recGeneralTail

/-- The body of the `reportData` useMemo for a defined window:
`aggregate(events, assets, window) -> ReportData`. `rand` is the mock
`Math.round(Math.random() * 300 + 60)` value. -/
def aggregateCore (fromD toD : Nat) (logs : List Event) (assets : List Asset)
    (rand : Nat) : ReportData :=
  let filtered := filteredEvents fromD toD logs
  let tv := threatOverviewOf filtered
  { executiveSummary :=
      { totalEvents := totalAlerts tv
      , criticalAlerts := tv.critical
      , highAlerts := tv.high
      , assetsMonitored := assets.length
      , riskScore := riskScoreOf tv }
  , threatOverview := tv
  , assetStatus :=
      { total := assets.length
      , online := (assets.filter fun a => a.status = some "online").length
      , offline := offlineCount assets
      , vulnerable := (vulnerableAssets assets).length }
  , topEvents := topEventsOf filtered
  , vulnerabilitySummary := vulnerabilitySummaryOf assets
  , recommendations := recommendationsOf tv assets
  , complianceMetrics :=
      { eventsProcessed := filtered.length
      , avgResponseTime := rand
      , systemUptime := (998 : ℚ) / 10 } }

/-- The full `reportData` useMemo, window endpoints optional:
`if (!dateRange?.from || !dateRange?.to) return null;` then the body. -/
def aggregate (fromD toD : Option Nat) (logs : List Event) (assets : List Asset)
    (rand : Nat) : Option ReportData :=
  match fromD, toD with
  | some f, some t => some (aggregateCore f t logs assets rand)
  | _, _ => none

/-! ### PDF serializer (`src/utils/pdfGenerator.ts`): table-row construction -/

/-- ASCII lowercasing (JS `toLowerCase` on the ASCII strings in play). -/
def lowerStr (s : String) : String := ⟨s.data.map Char.toLower⟩

/-- ASCII uppercasing (JS `toUpperCase` on the ASCII strings in play). -/
def upperStr (s : String) : String := ⟨s.data.map Char.toUpper⟩

/-- Civil date (year, month, day) from a count of days since 1970-01-01,
proleptic Gregorian (the UTC reading of a JS `Date`). -/
def civilFromDays (days : Nat) : Nat × Nat × Nat :=
  let n := days + 719468
  let era := n / 146097
  let doe := n % 146097
  let yoe := (doe - doe / 1460 + doe / 36524 - doe / 146096) / 365
  let y := yoe + era * 400
  let doy := doe - (365 * yoe + yoe / 4 - yoe / 100)
  let mp := (5 * doy + 2) / 153
  let d := doy - (153 * mp + 2) / 5 + 1
  let m := if mp < 10 then mp + 3 else mp - 9
  (if m ≤ 2 then y + 1 else y, m, d)

/-- Three-letter English month abbreviation (`MMM`). -/
def monthAbbrev (m : Nat) : String :=
  match m with
  | 1 => "Jan" | 2 => "Feb" | 3 => "Mar" | 4 => "Apr"
  | 5 => "May" | 6 => "Jun" | 7 => "Jul" | 8 => "Aug"
  | 9 => "Sep" | 10 => "Oct" | 11 => "Nov" | 12 => "Dec"
  | _ => ""

/-- Two-digit zero-padded day (`dd`). -/
def pad2 (n : Nat) : String :=
  if n < 10 then "0" ++ toString n else toString n

/-- date-fns `format(new Date(ts), 'MMM dd, yyyy')` for an epoch-ms
timestamp, read in UTC. -/
def formatMMMddyyyy (ts : Nat) : String :=
  let c := civilFromDays (ts / 86400000)
  monthAbbrev c.2.1 ++ " " ++ pad2 c.2.2 ++ ", " ++ toString c.1

/-- The percentage cell of a Threat Overview row:
`Math.round((count / Math.max(1, totalEvents)) * 100) + '%'`. -/
def pctCell (count total : Nat) : String :=
  toString (jsRound (count * 100) (max 1 total)) ++ "%"

/-- The `threatData` rows: `Object.entries(threatOverview)` in insertion
order, severity key capitalized, count, percentage. -/
def threatRows (rep : ReportData) : List (List String) :=
  let total := rep.executiveSummary.totalEvents
  [ ["Critical", toString rep.threatOverview.critical, pctCell rep.threatOverview.critical total]
  , ["High", toString rep.threatOverview.high, pctCell rep.threatOverview.high total]
  , ["Medium", toString rep.threatOverview.medium, pctCell rep.threatOverview.medium total]
  , ["Low", toString rep.threatOverview.low, pctCell rep.threatOverview.low total]
  , ["Info", toString rep.threatOverview.info, pctCell rep.threatOverview.info total] ]

/-- Alert-name cell:
`event.alertName.substring(0, 30) + (event.alertName.length > 30 ? '...' : '')`. -/
def truncateAlertName (s : String) : String :=
  String.mk (s.data.take 30) ++ (if 30 < s.length then "..." else "")

/-- One `eventData` row: uppercased severity, truncated alert name, host,
formatted date. -/
def eventRow (te : TopEvent) : List String :=
  [ upperStr te.severity
  , truncateAlertName te.alertName
  , te.hostName
  , formatMMMddyyyy te.timestamp ]

/-- The `eventData` rows: `reportData.topEvents.slice(0, 10).map(...)`. -/
def eventRows (rep : ReportData) : List (List String) :=
  (rep.topEvents.take 10).map eventRow

/-! ### Chat fallback classifier (`supabase/functions/ai-chat/index.ts`) -/

/-- `needle.isPrefixOf hay` at some position: JS `hay.includes(needle)`. -/
def strIncludesAux (needle : List Char) : List Char → Bool
  | [] => needle.isEmpty
  | c :: rest => needle.isPrefixOf (c :: rest) || strIncludesAux needle rest

/-- JS `hay.includes(needle)` for strings. -/
def strIncludes (hay needle : String) : Bool :=
  strIncludesAux needle.data hay.data

/-- `event.severity?.toLowerCase() || ''` in `classifyEvent`. -/
def sevLower (e : Event) : String := jsOr (e.severity.map lowerStr) ""

/-- `event.alert_name?.toLowerCase() || ''` in `classifyEvent`. -/
def alertLower (e : Event) : String := jsOr (e.alert_name.map lowerStr) ""

/-- `event.event_type?.toLowerCase() || ''` in `classifyEvent`. -/
def typeLower (e : Event) : String := jsOr (e.event_type.map lowerStr) ""

/-- The rule-based fallback `classifyEvent(event)` of the ai-chat
function, translated clause by clause from the source. -/
def classifyEvent (e : Event) : String :=
  let severity := sevLower e
  let alertName := alertLower e
  let eventType := typeLower e
  if severity = "critical" ∨ severity = "high" then
    if strIncludes alertName "malware" || strIncludes alertName "trojan" ||
        strIncludes eventType "malware" then
      "True Positive - Malware Detection"
    else if strIncludes alertName "intrusion" || strIncludes alertName "attack" ||
        strIncludes eventType "intrusion" then
      "True Positive - Intrusion Attempt"
    else
      "True Positive - Security Threat"
  else if severity = "low" ∨ severity = "info" then
    "True Negative - Normal Activity"
  else
    "Requires Investigation"

/-- The classifier as the specification sentence describes it (the
spec-side definition, for comparison with `classifyEvent`): the malware
branch fires when the alert name **or event type** contains `malware`
(no `trojan` rule), and the intrusion branch fires when the alert name
**or event type** contains `intrusion` or `attack`. -/
def classifyEventSpec (e : Event) : String :=
  let severity := sevLower e
  let alertName := alertLower e
  let eventType := typeLower e
  if severity = "critical" ∨ severity = "high" then
    if strIncludes alertName "malware" || strIncludes eventType "malware" then
      "True Positive - Malware Detection"
    else if strIncludes alertName "intrusion" || strIncludes alertName "attack" ||
        strIncludes eventType "intrusion" || strIncludes eventType "attack" then
      "True Positive - Intrusion Attempt"
    else
      "True Positive - Security Threat"
  else if severity = "low" ∨ severity = "info" then
    "True Negative - Normal Activity"
  else
    "Requires Investigation"

/-- Events whose `severity` field is none of the five recognized buckets
(they are excluded from the histogram and from `totalAlerts`). -/
def unrecognizedCount (l : List Event) : Nat :=
  (l.filter fun e => ¬(e.severity = some "critical" ∨ e.severity = some "high" ∨
    e.severity = some "medium" ∨ e.severity = some "low" ∨ e.severity = some "info")).length

/-! ### Helper lemmas -/

theorem mem_insertDesc (key : α → Nat) (x a : α) (l : List α) :
    a ∈ insertDesc key x l ↔ a = x ∨ a ∈ l := by
  induction l with
  | nil => simp [insertDesc]
  | cons y ys ih =>
    simp only [insertDesc]
    split
    · simp [List.mem_cons]
    · simp only [List.mem_cons, ih]
      tauto

theorem mem_sortByDesc (key : α → Nat) (a : α) (l : List α) :
    a ∈ sortByDesc key l ↔ a ∈ l := by
  induction l with
  | nil => simp [sortByDesc]
  | cons x xs ih => simp [sortByDesc, mem_insertDesc, ih]

theorem pairwise_insertDesc (key : α → Nat) (x : α) (l : List α)
    (h : l.Pairwise fun a b => key b ≤ key a) :
    (insertDesc key x l).Pairwise fun a b => key b ≤ key a := by
  induction l with
  | nil => simp [insertDesc]
  | cons y ys ih =>
    rw [List.pairwise_cons] at h
    obtain ⟨hy, hys⟩ := h
    simp only [insertDesc]
    split
    · rename_i hle
      refine List.Pairwise.cons ?_ (List.Pairwise.cons hy hys)
      intro b hb
      rcases List.mem_cons.mp hb with rfl | hb
      · exact hle
      · exact le_trans (hy b hb) hle
    · rename_i hgt
      refine List.Pairwise.cons ?_ (ih hys)
      intro b hb
      rcases (mem_insertDesc key x b ys).mp hb with rfl | hb
      · exact Nat.le_of_lt (Nat.lt_of_not_le hgt)
      · exact hy b hb

theorem pairwise_sortByDesc (key : α → Nat) (l : List α) :
    (sortByDesc key l).Pairwise fun a b => key b ≤ key a := by
  induction l with
  | nil => simp [sortByDesc]
  | cons x xs ih => exact pairwise_insertDesc key x _ ih

/-- Every filtered event falls in exactly one of the five histogram
buckets or the unrecognized remainder. -/
theorem sevCounts_partition (l : List Event) :
    sevCount "critical" l + sevCount "high" l + sevCount "medium" l +
      sevCount "low" l + sevCount "info" l + unrecognizedCount l = l.length := by
  induction l with
  | nil => rfl
  | cons e t ih =>
    simp only [sevCount, unrecognizedCount, List.filter_cons] at *
    by_cases h1 : e.severity = some "critical" <;>
      by_cases h2 : e.severity = some "high" <;>
      by_cases h3 : e.severity = some "medium" <;>
      by_cases h4 : e.severity = some "low" <;>
      by_cases h5 : e.severity = some "info" <;>
      simp_all <;> omega

theorem recPatch_mem_recommendationsOf (tv : ThreatOverview) (assets : List Asset) :
    recPatch ∈ recommendationsOf tv assets ↔ 0 < (vulnerableAssets assets).length := by
  unfold recommendationsOf
  split_ifs with h1 h2 h3 h4 <;>
    simp_all [recCritical, recPatch, recOffline, recReview, recGeneralTail]

theorem recOffline_mem_recommendationsOf (tv : ThreatOverview) (assets : List Asset) :
    recOffline ∈ recommendationsOf tv assets ↔ 0 < offlineCount assets := by
  unfold recommendationsOf
  split_ifs with h1 h2 h3 h4 <;>
    simp_all [recCritical, recPatch, recOffline, recReview, recGeneralTail]

/-! ### Claim theorems -/

/-- C1 (counterexample): the claim says events with unrecognized
severity are still counted in `totalEvents`. On an in-window event with
severity `"weird"` the code reports `totalEvents = 0` while the filtered
set has one event, so `totalEvents` does not count it; consequently
`sum(histogram) = totalEvents - 1` fails as well. -/
theorem c1_totalEvents_counterexample :
    (aggregateCore 0 10 [⟨"e1", 5, some "weird", none, none, none⟩] [] 0).executiveSummary.totalEvents
        = 0
    ∧ (filteredEvents 0 10 [⟨"e1", 5, some "weird", none, none, none⟩]).length = 1
    ∧ unrecognizedCount (filteredEvents 0 10 [⟨"e1", 5, some "weird", none, none, none⟩]) = 1
    ∧ (aggregateCore 0 10 [⟨"e1", 5, some "weird", none, none, none⟩] [] 0).executiveSummary.totalEvents
        ≠ (filteredEvents 0 10 [⟨"e1", 5, some "weird", none, none, none⟩]).length :=
  ⟨rfl, rfl, rfl, by decide⟩

/-- C1 (amended): the severity histogram gives the exact count of
filtered events in each of the five buckets; events with unknown or
missing severity are dropped from the histogram **and from
`totalEvents`** (which is the sum of the histogram values), while
`eventsProcessed` counts every filtered event; hence
`sum(histogram.values) = totalEvents` always, and `totalEvents` equals
`eventsProcessed` minus the number of events with unrecognized
severity. -/
theorem c1_histogram_amended (f t : Nat) (logs : List Event) (assets : List Asset) (r : Nat) :
    (aggregateCore f t logs assets r).threatOverview.critical
        = ((filteredEvents f t logs).filter fun e => e.severity = some "critical").length
    ∧ (aggregateCore f t logs assets r).threatOverview.high
        = ((filteredEvents f t logs).filter fun e => e.severity = some "high").length
    ∧ (aggregateCore f t logs assets r).threatOverview.medium
        = ((filteredEvents f t logs).filter fun e => e.severity = some "medium").length
    ∧ (aggregateCore f t logs assets r).threatOverview.low
        = ((filteredEvents f t logs).filter fun e => e.severity = some "low").length
    ∧ (aggregateCore f t logs assets r).threatOverview.info
        = ((filteredEvents f t logs).filter fun e => e.severity = some "info").length
    ∧ (aggregateCore f t logs assets r).threatOverview.critical
        + (aggregateCore f t logs assets r).threatOverview.high
        + (aggregateCore f t logs assets r).threatOverview.medium
        + (aggregateCore f t logs assets r).threatOverview.low
        + (aggregateCore f t logs assets r).threatOverview.info
        = (aggregateCore f t logs assets r).executiveSummary.totalEvents
    ∧ (aggregateCore f t logs assets r).executiveSummary.totalEvents
        + unrecognizedCount (filteredEvents f t logs)
        = (aggregateCore f t logs assets r).complianceMetrics.eventsProcessed := by
  refine ⟨rfl, rfl, rfl, rfl, rfl, rfl, ?_⟩
  exact sevCounts_partition (filteredEvents f t logs)

/-- C2: the risk score equals
`min(100, round((critical*10 + high*5 + medium*2) / max(1, totalEvents) * 100))`
over the filtered counts, always lies in `[0, 100]` (it is a natural
number, so `0 ≤` holds by type), and is `0` when the filtered event set
is empty. -/
theorem c2_risk_score (f t : Nat) (logs : List Event) (assets : List Asset) (r : Nat) :
    (aggregateCore f t logs assets r).executiveSummary.riskScore
        = min 100 (jsRound
            (((aggregateCore f t logs assets r).threatOverview.critical * 10
              + (aggregateCore f t logs assets r).threatOverview.high * 5
              + (aggregateCore f t logs assets r).threatOverview.medium * 2) * 100)
            (max 1 (aggregateCore f t logs assets r).executiveSummary.totalEvents))
    ∧ (aggregateCore f t logs assets r).executiveSummary.riskScore ≤ 100
    ∧ (filteredEvents f t logs = [] →
        (aggregateCore f t logs assets r).executiveSummary.riskScore = 0) := by
  refine ⟨rfl, min_le_left _ _, fun h => ?_⟩
  show riskScoreOf (threatOverviewOf (filteredEvents f t logs)) = 0
  rw [h]
  rfl

theorem c2_risk_score_witness :
    (aggregateCore 0 10 [] [] 0).executiveSummary.riskScore = 0 :=
  (c2_risk_score 0 10 [] [] 0).2.2 rfl

/-- C3: aggregation returns `null` (no `ReportData`) exactly when the
window's `from` or `to` endpoint is undefined; for every window with
both endpoints defined it succeeds with the computed report, with no
other error condition. -/
theorem c3_invalid_window (fromD toD : Option Nat) (logs : List Event) (assets : List Asset)
    (r : Nat) :
    (aggregate fromD toD logs assets r = none ↔ fromD = none ∨ toD = none)
    ∧ ∀ f t, fromD = some f → toD = some t →
        aggregate fromD toD logs assets r = some (aggregateCore f t logs assets r) := by
  cases fromD <;> cases toD <;> simp [aggregate]

theorem c3_invalid_window_witness :
    aggregate (some 0) (some 10) [] [] 0 = some (aggregateCore 0 10 [] [] 0) :=
  (c3_invalid_window (some 0) (some 10) [] [] 0).2 0 10 rfl rfl

/-- C4: an event is kept by the window filter iff it occurs in the input
list and its timestamp lies in `[from, to]`, both endpoints inclusive;
and the histogram, `totalEvents`, `topEvents` and `eventsProcessed` are
functions of the filtered set alone (two inputs with the same filtered
set yield the same values). -/
theorem c4_window_filtering :
    (∀ (f t : Nat) (logs : List Event) (e : Event),
        e ∈ filteredEvents f t logs ↔ e ∈ logs ∧ f ≤ e.timestamp ∧ e.timestamp ≤ t)
    ∧ ∀ (f t : Nat) (logs1 logs2 : List Event) (assets : List Asset) (r : Nat),
        filteredEvents f t logs1 = filteredEvents f t logs2 →
        (aggregateCore f t logs1 assets r).threatOverview
            = (aggregateCore f t logs2 assets r).threatOverview
        ∧ (aggregateCore f t logs1 assets r).executiveSummary.totalEvents
            = (aggregateCore f t logs2 assets r).executiveSummary.totalEvents
        ∧ (aggregateCore f t logs1 assets r).topEvents
            = (aggregateCore f t logs2 assets r).topEvents
        ∧ (aggregateCore f t logs1 assets r).complianceMetrics.eventsProcessed
            = (aggregateCore f t logs2 assets r).complianceMetrics.eventsProcessed := by
  constructor
  · intro f t logs e
    simp [filteredEvents, List.mem_filter]
  · intro f t logs1 logs2 assets r h
    refine ⟨?_, ?_, ?_, ?_⟩
    · show threatOverviewOf (filteredEvents f t logs1)
          = threatOverviewOf (filteredEvents f t logs2)
      rw [h]
    · show totalAlerts (threatOverviewOf (filteredEvents f t logs1))
          = totalAlerts (threatOverviewOf (filteredEvents f t logs2))
      rw [h]
    · show topEventsOf (filteredEvents f t logs1) = topEventsOf (filteredEvents f t logs2)
      rw [h]
    · show (filteredEvents f t logs1).length = (filteredEvents f t logs2).length
      rw [h]

theorem c4_window_filtering_witness :
    (aggregateCore 0 10
        [⟨"a", 5, some "critical", none, none, none⟩, ⟨"b", 50, some "high", none, none, none⟩]
        [] 0).complianceMetrics.eventsProcessed
      = (aggregateCore 0 10 [⟨"a", 5, some "critical", none, none, none⟩]
          [] 0).complianceMetrics.eventsProcessed :=
  (c4_window_filtering.2 0 10
    [⟨"a", 5, some "critical", none, none, none⟩, ⟨"b", 50, some "high", none, none, none⟩]
    [⟨"a", 5, some "critical", none, none, none⟩] [] 0 rfl).2.2.2

/-- C5: `topEvents` has length at most 10, every entry is derived from a
filtered event of severity critical or high, and the list is in
descending order of timestamp. -/
theorem c5_top_events (f t : Nat) (logs : List Event) (assets : List Asset) (r : Nat) :
    (aggregateCore f t logs assets r).topEvents.length ≤ 10
    ∧ (∀ te ∈ (aggregateCore f t logs assets r).topEvents,
        ∃ e ∈ filteredEvents f t logs,
          (e.severity = some "critical" ∨ e.severity = some "high") ∧ te = toTopEvent e)
    ∧ (aggregateCore f t logs assets r).topEvents.Pairwise
        fun a b => b.timestamp ≤ a.timestamp := by
  refine ⟨?_, ?_, ?_⟩
  · show (topEventsOf (filteredEvents f t logs)).length ≤ 10
    unfold topEventsOf
    rw [List.length_map, List.length_take]
    exact min_le_left _ _
  · show ∀ te ∈ topEventsOf (filteredEvents f t logs), _
    intro te hte
    unfold topEventsOf at hte
    obtain ⟨e, he, rfl⟩ := List.mem_map.mp hte
    have he' := List.take_subset _ _ he
    rw [mem_sortByDesc] at he'
    rw [List.mem_filter] at he'
    exact ⟨e, he'.1, by simpa using he'.2, rfl⟩
  · show (topEventsOf (filteredEvents f t logs)).Pairwise _
    unfold topEventsOf
    rw [List.pairwise_map]
    exact List.Pairwise.sublist (List.take_sublist 10 _)
      (pairwise_sortByDesc (fun e : Event => e.timestamp) _)

theorem c5_top_events_witness :
    ∃ e ∈ filteredEvents 0 10 [⟨"a", 5, some "critical", none, none, none⟩],
      (e.severity = some "critical" ∨ e.severity = some "high")
      ∧ toTopEvent ⟨"a", 5, some "critical", none, none, none⟩ = toTopEvent e :=
  (c5_top_events 0 10 [⟨"a", 5, some "critical", none, none, none⟩] [] 0).2.1
    (toTopEvent ⟨"a", 5, some "critical", none, none, none⟩) (by decide)

/-- C6: `vulnerabilitySummary` has at most 10 entries, each entry comes
from an asset with a non-empty vulnerability list and reports that
asset's total vulnerability count, and entries are in descending order
of critical-vulnerability count. -/
theorem c6_vulnerable_assets (f t : Nat) (logs : List Event) (assets : List Asset) (r : Nat) :
    (aggregateCore f t logs assets r).vulnerabilitySummary.length ≤ 10
    ∧ (∀ v ∈ (aggregateCore f t logs assets r).vulnerabilitySummary,
        ∃ a ∈ assets, 0 < (a.vulnerabilities.getD []).length
          ∧ v = toVulnSummary a
          ∧ v.vulnerabilityCount = (a.vulnerabilities.getD []).length)
    ∧ (aggregateCore f t logs assets r).vulnerabilitySummary.Pairwise
        fun x y => y.criticalVulns ≤ x.criticalVulns := by
  refine ⟨?_, ?_, ?_⟩
  · show (vulnerabilitySummaryOf assets).length ≤ 10
    unfold vulnerabilitySummaryOf
    rw [List.length_take]
    exact min_le_left _ _
  · show ∀ v ∈ vulnerabilitySummaryOf assets, _
    intro v hv
    unfold vulnerabilitySummaryOf at hv
    have hv' := List.take_subset _ _ hv
    rw [mem_sortByDesc] at hv'
    obtain ⟨a, ha, rfl⟩ := List.mem_map.mp hv'
    rw [vulnerableAssets, List.mem_filter] at ha
    refine ⟨a, ha.1, ?_, rfl, rfl⟩
    have hp := ha.2
    cases hva : a.vulnerabilities with
    | none => rw [hva] at hp; simp at hp
    | some vs => rw [hva] at hp; simpa using hp
  · show (vulnerabilitySummaryOf assets).Pairwise _
    unfold vulnerabilitySummaryOf
    exact List.Pairwise.sublist (List.take_sublist 10 _)
      (pairwise_sortByDesc (fun v : VulnSummaryEntry => v.criticalVulns) _)

theorem c6_vulnerable_assets_witness :
    ∃ a ∈ [(⟨"srv", some "online", some [⟨"CVE-1", "critical"⟩]⟩ : Asset)],
      0 < (a.vulnerabilities.getD []).length
      ∧ toVulnSummary ⟨"srv", some "online", some [⟨"CVE-1", "critical"⟩]⟩ = toVulnSummary a
      ∧ (toVulnSummary (⟨"srv", some "online", some [⟨"CVE-1", "critical"⟩]⟩ : Asset)).vulnerabilityCount
          = (a.vulnerabilities.getD []).length :=
  (c6_vulnerable_assets 0 10 [] [⟨"srv", some "online", some [⟨"CVE-1", "critical"⟩]⟩] 0).2.1
    (toVulnSummary ⟨"srv", some "online", some [⟨"CVE-1", "critical"⟩]⟩) (by decide)

/-- C7: the recommendation list is the four threshold-triggered
advisories, in order, prepended to the fixed general tail; and on empty
events and assets with a valid window the report has all counts zero,
risk score 0, and exactly the general tail as recommendations. -/
theorem c7_recommendations (f t : Nat) (logs : List Event) (assets : List Asset) (r : Nat) :
    (aggregateCore f t logs assets r).recommendations
        = (if 0 < (aggregateCore f t logs assets r).threatOverview.critical
            then [recCritical] else [])
          ++ (if 0 < (aggregateCore f t logs assets r).assetStatus.vulnerable
              then [recPatch] else [])
          ++ (if 0 < (aggregateCore f t logs assets r).assetStatus.offline
              then [recOffline] else [])
          ++ (if 5 < (aggregateCore f t logs assets r).threatOverview.high
              then [recReview] else [])
          ++ recGeneralTail
    ∧ aggregate (some f) (some t) [] [] r = some (aggregateCore f t [] [] r)
    ∧ (aggregateCore f t [] [] r).executiveSummary = ⟨0, 0, 0, 0, 0⟩
    ∧ (aggregateCore f t [] [] r).threatOverview = ⟨0, 0, 0, 0, 0⟩
    ∧ (aggregateCore f t [] [] r).assetStatus = ⟨0, 0, 0, 0⟩
    ∧ (aggregateCore f t [] [] r).topEvents = []
    ∧ (aggregateCore f t [] [] r).vulnerabilitySummary = []
    ∧ (aggregateCore f t [] [] r).complianceMetrics.eventsProcessed = 0
    ∧ (aggregateCore f t [] [] r).recommendations = recGeneralTail := by
  refine ⟨rfl, rfl, ?_, ?_, ?_, ?_, ?_, ?_, ?_⟩ <;>
    simp [aggregateCore, filteredEvents, threatOverviewOf, sevCount, totalAlerts,
      riskScoreOf, topEventsOf, vulnerabilitySummaryOf, vulnerableAssets, offlineCount,
      recommendationsOf, jsRound, sortByDesc]

/-- C8 (counterexample): the claim's decision table differs from the
code. For a high-severity event with event type `"attack"`, the claim
(`classifyEventSpec`, which tests the event type for `attack`) yields
`True Positive - Intrusion Attempt` while `classifyEvent` yields
`True Positive - Security Threat`; for a critical event whose alert name
contains `"trojan"`, the code yields `True Positive - Malware Detection`
while the claim (which has no trojan rule) yields
`True Positive - Security Threat`. -/
theorem c8_classifier_counterexample :
    classifyEvent ⟨"e", 0, some "high", some "attack", some "x", none⟩
        = "True Positive - Security Threat"
    ∧ classifyEventSpec ⟨"e", 0, some "high", some "attack", some "x", none⟩
        = "True Positive - Intrusion Attempt"
    ∧ classifyEvent ⟨"e", 0, some "high", some "attack", some "x", none⟩
        ≠ classifyEventSpec ⟨"e", 0, some "high", some "attack", some "x", none⟩
    ∧ classifyEvent ⟨"e", 0, some "critical", none, some "Trojan dropper", none⟩
        = "True Positive - Malware Detection"
    ∧ classifyEventSpec ⟨"e", 0, some "critical", none, some "Trojan dropper", none⟩
        = "True Positive - Security Threat" :=
  ⟨by decide, by decide, by decide, by decide, by decide⟩

/-- C8 (amended): the fallback classifier is a deterministic total
function of the event; with severity, alert name and event type
lowercased (missing fields read as empty), it returns: for critical/high
severity, `True Positive - Malware Detection` when the alert name
contains `malware` or `trojan` or the event type contains `malware`;
otherwise `True Positive - Intrusion Attempt` when the alert name
contains `intrusion` or `attack` or the event type contains `intrusion`;
otherwise `True Positive - Security Threat`; for low/info severity
`True Negative - Normal Activity`; for every other severity
`Requires Investigation`. -/
theorem c8_classifier_amended (e : Event) :
    ((sevLower e = "critical" ∨ sevLower e = "high") →
      ((strIncludes (alertLower e) "malware" ∨ strIncludes (alertLower e) "trojan" ∨
          strIncludes (typeLower e) "malware") →
        classifyEvent e = "True Positive - Malware Detection")
      ∧ (¬(strIncludes (alertLower e) "malware" ∨ strIncludes (alertLower e) "trojan" ∨
            strIncludes (typeLower e) "malware") →
          (strIncludes (alertLower e) "intrusion" ∨ strIncludes (alertLower e) "attack" ∨
            strIncludes (typeLower e) "intrusion") →
          classifyEvent e = "True Positive - Intrusion Attempt")
      ∧ (¬(strIncludes (alertLower e) "malware" ∨ strIncludes (alertLower e) "trojan" ∨
            strIncludes (typeLower e) "malware") →
          ¬(strIncludes (alertLower e) "intrusion" ∨ strIncludes (alertLower e) "attack" ∨
            strIncludes (typeLower e) "intrusion") →
          classifyEvent e = "True Positive - Security Threat"))
    ∧ (¬(sevLower e = "critical" ∨ sevLower e = "high") →
        (sevLower e = "low" ∨ sevLower e = "info") →
        classifyEvent e = "True Negative - Normal Activity")
    ∧ (¬(sevLower e = "critical" ∨ sevLower e = "high") →
        ¬(sevLower e = "low" ∨ sevLower e = "info") →
        classifyEvent e = "Requires Investigation") := by
  simp only [classifyEvent]
  split_ifs with h1 h2 h3 h4 <;> simp_all [← Bool.not_eq_true] <;> tauto

theorem c8_classifier_amended_witness :
    classifyEvent ⟨"e", 0, some "low", none, none, none⟩
        = "True Negative - Normal Activity" :=
  (c8_classifier_amended ⟨"e", 0, some "low", none, none, none⟩).2.1 (by decide) (by decide)

/-- C9: the PDF Threat Overview rows carry a percentage cell equal to
`round(count / max(1, totalEvents) * 100)` for each of the five
severities, in order; each Top Security Events row is built from a
`topEvents` entry (first 10 only) with severity uppercased, alert name
truncated to its first 30 characters with `...` appended exactly when
the name is longer than 30 characters, and the date rendered as
`MMM dd, yyyy`. -/
theorem c9_pdf_rendering (rep : ReportData) :
    threatRows rep
        = [ ["Critical", toString rep.threatOverview.critical,
              toString (jsRound (rep.threatOverview.critical * 100)
                (max 1 rep.executiveSummary.totalEvents)) ++ "%"]
          , ["High", toString rep.threatOverview.high,
              toString (jsRound (rep.threatOverview.high * 100)
                (max 1 rep.executiveSummary.totalEvents)) ++ "%"]
          , ["Medium", toString rep.threatOverview.medium,
              toString (jsRound (rep.threatOverview.medium * 100)
                (max 1 rep.executiveSummary.totalEvents)) ++ "%"]
          , ["Low", toString rep.threatOverview.low,
              toString (jsRound (rep.threatOverview.low * 100)
                (max 1 rep.executiveSummary.totalEvents)) ++ "%"]
          , ["Info", toString rep.threatOverview.info,
              toString (jsRound (rep.threatOverview.info * 100)
                (max 1 rep.executiveSummary.totalEvents)) ++ "%"] ]
    ∧ (∀ te ∈ rep.topEvents.take 10, eventRow te ∈ eventRows rep)
    ∧ ∀ te : TopEvent,
        eventRow te
            = [upperStr te.severity, truncateAlertName te.alertName, te.hostName,
                formatMMMddyyyy te.timestamp]
        ∧ (30 < te.alertName.length →
            truncateAlertName te.alertName
              = String.mk (te.alertName.data.take 30) ++ "...")
        ∧ (te.alertName.length ≤ 30 → truncateAlertName te.alertName = te.alertName) := by
  refine ⟨rfl, ?_, ?_⟩
  · intro te hte
    exact List.mem_map.mpr ⟨te, hte, rfl⟩
  · intro te
    refine ⟨rfl, fun h => ?_, fun h => ?_⟩
    · unfold truncateAlertName
      rw [if_pos h]
    · unfold truncateAlertName
      rw [if_neg (not_lt.mpr h)]
      cases hs : te.alertName with
      | mk d =>
        rw [hs] at h
        simp only [String.length] at h
        show String.mk (d.take 30 ++ []) = String.mk d
        rw [List.append_nil, List.take_of_length_le h]

theorem c9_pdf_rendering_witness :
    truncateAlertName "Suspicious outbound connection to known C2 host"
        = String.mk (("Suspicious outbound connection to known C2 host" : String).data.take 30)
            ++ "..." :=
  ((c9_pdf_rendering (aggregateCore 0 0 [] [] 0)).2.2
    ⟨"i", "t", "critical", 0, "h", "Suspicious outbound connection to known C2 host"⟩).2.1
    (by decide)

/-- C10: every asset-derived output of the report — `assetsMonitored`,
the whole `assetStatus` block, `vulnerabilitySummary`, and the presence
of the vulnerable-asset and offline-asset recommendation strings — is
identical across any two valid windows over the same event and asset
lists: the window is applied only to events. -/
theorem c10_window_noninterference (f1 t1 f2 t2 : Nat) (logs : List Event)
    (assets : List Asset) (r : Nat) :
    (aggregateCore f1 t1 logs assets r).executiveSummary.assetsMonitored
        = (aggregateCore f2 t2 logs assets r).executiveSummary.assetsMonitored
    ∧ (aggregateCore f1 t1 logs assets r).assetStatus
        = (aggregateCore f2 t2 logs assets r).assetStatus
    ∧ (aggregateCore f1 t1 logs assets r).vulnerabilitySummary
        = (aggregateCore f2 t2 logs assets r).vulnerabilitySummary
    ∧ (recPatch ∈ (aggregateCore f1 t1 logs assets r).recommendations
        ↔ recPatch ∈ (aggregateCore f2 t2 logs assets r).recommendations)
    ∧ (recOffline ∈ (aggregateCore f1 t1 logs assets r).recommendations
        ↔ recOffline ∈ (aggregateCore f2 t2 logs assets r).recommendations) := by
  refine ⟨rfl, rfl, rfl, ?_, ?_⟩
  · rw [show (aggregateCore f1 t1 logs assets r).recommendations
        = recommendationsOf (threatOverviewOf (filteredEvents f1 t1 logs)) assets from rfl,
      show (aggregateCore f2 t2 logs assets r).recommendations
        = recommendationsOf (threatOverviewOf (filteredEvents f2 t2 logs)) assets from rfl,
      recPatch_mem_recommendationsOf, recPatch_mem_recommendationsOf]
  · rw [show (aggregateCore f1 t1 logs assets r).recommendations
        = recommendationsOf (threatOverviewOf (filteredEvents f1 t1 logs)) assets from rfl,
      show (aggregateCore f2 t2 logs assets r).recommendations
        = recommendationsOf (threatOverviewOf (filteredEvents f2 t2 logs)) assets from rfl,
      recOffline_mem_recommendationsOf, recOffline_mem_recommendationsOf]
